import Mathlib

/-!
Verification development for the `mobkp-instances` repository: a shallow
embedding of the instance generation, encoding, and persistence pipeline
(`src/include/solver.hpp`, `src/include/parser.hpp`, `src/apps/mobkp_instances.cpp`,
the `FileLock` header and the `Parameters` struct), together with theorems
settling the specification claims about it.

Conventions of the embedding:
* C++ machine integers (`int32_t`, `int64_t`) are modelled as `Int`/`Nat`;
  all quantities handled by this code are far from the overflow boundaries,
  except where an explicit modulus is written.
* C++ `double` values (`correlation`, `weight_factor`, `timeout`) are
  modelled as `Rat`.  Every concrete boundary value a claim exercises
  (`-0.5`, `-0.45`, `0.5` with `m = 3`) is exactly representable in binary
  floating point, so the comparisons the theorems depend on coincide with
  the ones the compiled program performs.
* fallible code is modelled with `Option`/`Except`; a C++ `throw` that the
  caller does not catch becomes an `Except.error`, a loop that does not
  terminate becomes `none`.
-/

namespace MobkpInstances

/-! Model of the C library pseudo-random source

`random_mobkp` seeds the C library generator with `std::srand(seed)` and
draws with `std::rand()`.  The C library guarantees a deterministic
sequence from a given seed; the concrete sequence is implementation
defined.  We model it with the ISO C reference generator (the sample
implementation given in the C standard): 64-bit state
`next = next * 1103515245 + 12345`, output `(next / 65536) % 32768`.
Every theorem about concrete draw values is relative to this model;
the refutations below are additionally robust to the choice of model
(they only use that each draw is a fixed non-negative integer).
-/

/-- One state transition of the modelled C library generator
(`next = next * 1103515245 + 12345` on a 64-bit unsigned `next`). -/
def randStep (s : Nat) : Nat := (s * 1103515245 + 12345) % (2 ^ 64)

/-- State of the generator after `k` calls to `rand()`, having been seeded
with `srand(seed)` (which sets the state to `seed`). -/
def randStateAfter (seed : Nat) : Nat → Nat
  | 0 => seed
  | k + 1 => randStep (randStateAfter seed k)

/-- The value returned by the `(k+1)`-st call to `rand()` after
`srand(seed)`: `(next / 65536) % 32768` on the updated state. -/
def randAt (seed k : Nat) : Nat := (randStateAfter seed (k + 1)) / 65536 % 32768

/-! Uniform-Random Generator (`internal::random_mobkp`, solver.hpp lines 140-178)

For each item `i` the source first draws the weight, then `m` objective
values, so item `i` consumes the `m+1` draws numbered
`i*(m+1), ..., i*(m+1)+m`; the *first* of those is the weight and the
remaining `m` are the objective values.  In the flat `points` array the
values occupy positions `i*(m+1)+j` for `j < m` and the weight position
`i*(m+1)+m`; the capacity `W` is inserted at the front afterwards.
-/

/-- The weight drawn for item `i`: `(std::rand() % (MAX - 1)) + 1`
(solver.hpp line 157).  Item `i`'s weight is its first draw, number
`i*(m+1)` in the overall sequence. -/
def weightDraw (seed m MAX i : Nat) : Int := ((randAt seed (i * (m + 1)) % (MAX - 1)) + 1 : Nat)

/-- The value drawn for item `i`, objective `j`:
`(std::rand() % (MAX - 1)) + 1` (solver.hpp line 159); it is drawn after
the item's weight, as draw number `i*(m+1) + 1 + j`. -/
def valueDraw (seed m MAX i j : Nat) : Int :=
  ((randAt seed (i * (m + 1) + 1 + j) % (MAX - 1)) + 1 : Nat)

/-- The block of the flat `points` array belonging to item `i`: the `m`
objective values at positions `i*(m+1)+j` (`j < m`) followed by the weight
at position `i*(m+1)+m` (solver.hpp lines 156-164). -/
def itemBlock (seed m MAX i : Nat) : List Int :=
  ((List.range m).map (fun j => valueDraw seed m MAX i j)) ++ [weightDraw seed m MAX i]

/-- The weights of all `n` items, in item order (the values summed into
`total_weight` by the generation loop). -/
def itemWeights (seed n m MAX : Nat) : List Int :=
  (List.range n).map (fun i => weightDraw seed m MAX i)

/-- Rounding of `std::round`: to the nearest integer, halfway cases away
from zero. -/
def roundHalfAway (q : Rat) : Int :=
  if 0 ≤ q then ⌊q + 1 / 2⌋ else -⌊-q + 1 / 2⌋

/-- The knapsack capacity `W = std::round(total_weight * weight_factor)`
(solver.hpp line 166). -/
def capacityOf (weight_factor : Rat) (total_weight : Int) : Int :=
  roundHalfAway ((total_weight : Rat) * weight_factor)

/-- The flat `RawInstanceData` produced by `internal::random_mobkp`
(solver.hpp lines 151-167): the capacity `W` followed by the `n` item
blocks.  The item part is exactly the result of the source's
index-assignment loop, which fills positions `i*(m+1)+j` (value `j` of
item `i`) and `i*(m+1)+m` (weight of item `i`) for `i < n`. -/
def random_mobkp_raw (n m seed : Nat) (weight_factor : Rat) (MAX : Nat) : List Int :=
  capacityOf weight_factor (itemWeights seed n m MAX).sum ::
    (List.range n).flatMap (fun i => itemBlock seed m MAX i)

/-! Problem structure, Instance/Solution Writer and Problem decoder

`Problem` is the structured view of `RawInstanceData` (spec data model /
`mobkp::problem`): the flat encoding places, for each item, the `m`
objective values at positions `i*(m+1)+j` (`j < m`) and the weight at
position `i*(m+1)+m`, with the capacity `W` in front — exactly how both
generators build the `points` vector they hand to `mobkp::problem`.
-/

/-- Structured view of one instance: item count, objective count,
capacity, and per-item (weight, value-vector) pairs. -/
structure Problem where
  n : Nat
  m : Nat
  W : Int
  items : List (Int × List Int)
  deriving DecidableEq, Repr

/-- The token stream written by `internal::write_solution`
(solver.hpp lines 85-104), whitespace-separated: `n m`, `W`, then for each
item its **weight followed by its `m` objective values**
(line 97 prints `problem.item_weights(i).back()` first and then
`fmt::join(problem.item_values(i))`), then the solution count and the
objective vectors. -/
def write_solution_tokens (p : Problem) (solutions : List (List Int)) : List Int :=
  (p.n : Int) :: (p.m : Int) :: p.W ::
    (p.items.flatMap (fun it => it.1 :: it.2) ++
      ((solutions.length : Int) :: solutions.flatMap (fun s => s)))

/-- Reading loop of the Problem decoder in `internal::correlated_mobkp`
(solver.hpp lines 214-224): for each of the `_n` items it reads the `m`
objective values **first** and the weight **last**.  Returns the items
(as (weight, values) pairs, the structured view of where the tokens are
stored in the flat `points` array) and the unconsumed tokens; `none` on a
short read. -/
def read_items (m : Nat) : Nat → List Int → Option (List (Int × List Int) × List Int)
  | 0, ts => some ([], ts)
  | i + 1, ts =>
    if m + 1 ≤ ts.length then
      match ts.drop m with
      | [] => none
      | wv :: rest =>
        match read_items m i rest with
        | some (its, rem) => some ((wv, ts.take m) :: its, rem)
        | none => none
    else none

/-- The Problem decoder of `internal::correlated_mobkp`
(solver.hpp lines 209-225) on a well-formed token stream: reads `n m`,
then `W`, then `n` lines of `m` objective values followed by a weight,
and assembles the structured Problem (the flat `points` array with `W`
inserted at the front, viewed through the positional encoding). -/
def parse_problem (ts : List Int) : Option Problem :=
  match ts with
  | tn :: tm :: tW :: rest =>
    match read_items tm.toNat tn.toNat rest with
    | some (its, _) => some ⟨tn.toNat, tm.toNat, tW, its⟩
    | none => none
  | _ => none

/-! Parameter validation (`validate_correlation`, mobkp_instances.cpp lines 73-89) -/

/-- `validate_correlation` from `src/apps/mobkp_instances.cpp` (lines
73-89), returning `true` when the value is accepted (the C++ function
throws `std::invalid_argument` exactly when this returns `false`).
`ty` is the instance type (1: negative, 2: positive), `m` the number of
objectives, `c` the correlation. -/
def validate_correlation (ty : Int) (m : Nat) (c : Rat) : Bool :=
  let max_abs_correlation : Rat := 1 / ((m : Rat) - 1)
  if ty = 1 then
    if c ≥ 0 ∨ c < -max_abs_correlation then false else true
  else if ty = 2 then
    if c ≤ 0 ∨ c > max_abs_correlation then false else true
  else
    true

/-! Formatted-extraction model for the Correlated Generator's re-read

`correlated_mobkp` re-reads the external generator's output with
`operator>>` on an `std::fstream` and never inspects the stream state.
We model the stream as a token list plus the fail flag: per C++11
semantics, a failed extraction (stream already failed, no token left, or
a non-numeric token) stores `0` in the target and sets the fail flag,
which is sticky.
-/

/-- An input stream: remaining whitespace-separated tokens and the
(sticky) fail flag of the C++ stream. -/
structure IStream where
  toks : List String
  failed : Bool
  deriving DecidableEq, Repr

/-- Numeric interpretation of one token, as `operator>>` for an integer
target would read it: an optional sign followed by at least one digit. -/
def token_int (s : String) : Option Int :=
  let digits (cs : List Char) : Option Nat :=
    if cs = [] ∨ ¬cs.all Char.isDigit then none
    else some (cs.foldl (fun a c => a * 10 + (c.toNat - 48)) 0)
  match s.toList with
  | '-' :: cs => (digits cs).map (fun v => -(v : Int))
  | '+' :: cs => (digits cs).map (fun v => (v : Int))
  | cs => (digits cs).map (fun v => (v : Int))

/-- One formatted extraction `fin >> x` for an integer `x` (C++11): on
success the token is consumed and its value stored; on failure (stream
already failed, exhausted, or a malformed token) the flag is set and `0`
is stored. -/
def stream_read_int (s : IStream) : Int × IStream :=
  if s.failed then (0, s)
  else
    match s.toks with
    | [] => (0, ⟨[], true⟩)
    | t :: rest =>
      match token_int t with
      | some v => (v, ⟨rest, false⟩)
      | none => (0, ⟨t :: rest, true⟩)

/-- `fin >> x` repeated `k` times, collecting the stored values in
order. -/
def stream_read_ints : Nat → IStream → List Int × IStream
  | 0, s => ([], s)
  | k + 1, s =>
    let (v, s1) := stream_read_int s
    let (vs, s2) := stream_read_ints k s1
    (v :: vs, s2)

/-- The item-reading loop of `correlated_mobkp` (solver.hpp lines
214-224): for each of the `_n` items, `_m` extractions for the objective
values followed by one for the weight; the stored values land in the
flat `points` array in exactly this order. -/
def correlated_read_points (m : Nat) : Nat → IStream → List Int × IStream
  | 0, s => ([], s)
  | i + 1, s =>
    let (vs, s1) := stream_read_ints m s
    let (w, s2) := stream_read_int s1
    let (rest, s3) := correlated_read_points m i s2
    (vs ++ w :: rest, s3)

/-- The whole re-read of `correlated_mobkp` (solver.hpp lines 209-225):
`_n`, `_m`, `W`, then the item loop, then `W` inserted at the front of
`points`.  Returns the flat data together with the final fail flag —
which the source never looks at. -/
def correlated_read (s : IStream) : List Int × Bool :=
  let (tn, s1) := stream_read_int s
  let (tm, s2) := stream_read_int s1
  let (tW, s3) := stream_read_int s2
  let (pts, s4) := correlated_read_points tm.toNat tn.toNat s3
  (tW :: pts, s4.failed)

/-- Outcome of the file re-read stage of `correlated_mobkp`: the source
exits fatally (`exit(1)`) only when the file cannot be opened
(solver.hpp lines 205-208); otherwise it proceeds to solve and write
with whatever the extractions produced. -/
inductive CorrOutcome where
  | fatalOpen : CorrOutcome
  | proceed : List Int → CorrOutcome
  deriving DecidableEq, Repr

/-- The file re-read stage: `none` models a file that cannot be opened,
`some ts` a file whose whitespace-separated tokens are `ts`. -/
def correlated_mobkp_read (file : Option (List String)) : CorrOutcome :=
  match file with
  | none => CorrOutcome.fatalOpen
  | some ts => CorrOutcome.proceed (correlated_read ⟨ts, false⟩).1

/-! Concurrent Stats Logger and batch control flow

`save_stats_to_file` (solver.hpp lines 44-75) and the batch loop of
`main` (mobkp_instances.cpp lines 144-191, inside the single
`try`/`catch` of lines 92-223).  The environment of one append is the
fate of its four fallible steps.
-/

/-- The ways a stats append can fail by throwing (all propagate: nothing
catches between `save_stats_to_file` and `main`'s top-level handler). -/
inductive StatsErr where
  | fopenFail : StatsErr
  | filenoFail : StatsErr
  | lockFail : StatsErr
  deriving DecidableEq, Repr

/-- Environment of one append: whether the `std::ofstream` opens, whether
`fopen` succeeds, whether `fileno` succeeds, and whether `flock(LOCK_EX)`
succeeds for it. -/
structure AppendEnv where
  streamOk : Bool
  fopenOk : Bool
  filenoOk : Bool
  lockOk : Bool
  deriving DecidableEq, Repr

/-- `internal::save_stats_to_file` (solver.hpp lines 44-75): a failed
`ofstream` open is reported to `cerr` and returns *normally*; a failed
`fopen`/`fileno` throws; a failed `flock` makes the `FileLock`
constructor throw (filelock header lines 33-37); otherwise the row is
written under the lock and the function returns. -/
def save_stats_to_file (env : AppendEnv) : Except StatsErr Unit :=
  if env.streamOk = false then Except.ok ()
  else if env.fopenOk = false then Except.error StatsErr.fopenFail
  else if env.filenoOk = false then Except.error StatsErr.filenoFail
  else if env.lockOk = false then Except.error StatsErr.lockFail
  else Except.ok ()

/-- One batch request as executed by `main`'s loop body
(mobkp_instances.cpp lines 167-188): the generation calls
`save_stats_to_file`, whose exceptions propagate uncaught to `main`. -/
def run_request (env : AppendEnv) : Except StatsErr Unit :=
  save_stats_to_file env

/-- `main`'s batch loop under its enclosing `try` (mobkp_instances.cpp
lines 92, 144-191, 220-223): requests run in order, `count` is
incremented before each generation; the first exception leaves the loop,
is caught by the top-level handler (which reports it and makes the
process return 1), and no later request runs.  Result: the number of
requests started, and the reported error if any. -/
def run_batch : List AppendEnv → Nat × Option StatsErr
  | [] => (0, none)
  | env :: rest =>
    match run_request env with
    | Except.error e => (1, some e)
    | Except.ok _ =>
      let (c, r) := run_batch rest
      (c + 1, r)

/-! Range/Batch Expander (`parse_range`, `parse_double_list` and the
batch loop of `main`, mobkp_instances.cpp lines 18-64 and 144-191) -/

/-- `std::string::find(c)`: index of the first occurrence, if any. -/
def str_find (s : String) (c : Char) : Option Nat :=
  s.toList.findIdx? (fun d => d = c)

/-- `std::string::substr(pos, count)` (count clamped to the remainder,
as for `std::string`). -/
def substr_cnt (s : String) (pos cnt : Nat) : String :=
  String.mk ((s.toList.drop pos).take cnt)

/-- `std::string::substr(pos)`: the remainder from `pos`. -/
def substr_from (s : String) (pos : Nat) : String :=
  String.mk (s.toList.drop pos)

/-- `std::stoi`: optional whitespace, optional sign, then a maximal
non-empty run of digits (anything after it is ignored); `none` when no
digits are found (`std::invalid_argument`). -/
def stoi (s : String) : Option Int :=
  let digitsVal (cs : List Char) : Option Nat :=
    let ds := cs.takeWhile Char.isDigit
    if ds = [] then none
    else some (ds.foldl (fun a c => a * 10 + (c.toNat - 48)) 0)
  match s.toList.dropWhile (fun c => c = ' ') with
  | '-' :: cs => (digitsVal cs).map (fun v => -(v : Int))
  | '+' :: cs => (digitsVal cs).map (fun v => (v : Int))
  | cs => (digitsVal cs).map (fun v => (v : Int))

/-- `std::stod` restricted to plain decimal literals: optional sign,
digits, optional point and fraction digits (exponents and the other
`stod` forms do not occur in this program's inputs); trailing characters
are ignored as `stod` ignores them; `none` when no digits are found. -/
def stod (s : String) : Option Rat :=
  let natVal (cs : List Char) : Nat := cs.foldl (fun a c => a * 10 + (c.toNat - 48)) 0
  let core (cs : List Char) : Option Rat :=
    let ip := cs.takeWhile Char.isDigit
    match cs.dropWhile Char.isDigit with
    | '.' :: fr =>
      let fp := fr.takeWhile Char.isDigit
      if ip = [] ∧ fp = [] then none
      else some ((natVal ip : Rat) + (natVal fp : Rat) / ((10 : Rat) ^ fp.length))
    | _ => if ip = [] then none else some (natVal ip : Rat)
  match s.toList.dropWhile (fun c => c = ' ') with
  | '-' :: cs => (core cs).map (fun v => -v)
  | '+' :: cs => (core cs).map (fun v => v)
  | cs => (core cs).map (fun v => v)

/-- The `for (v = start; v <= end; v += step)` loop of `parse_range`
(mobkp_instances.cpp lines 42-44), with explicit fuel; `parse_range`
supplies fuel `(end + 1 - start).toNat`, which covers every iteration
when `step ≥ 1` (each iteration advances `v` by at least 1). -/
def range_loop : Nat → Int → Int → Int → List Int
  | 0, _, _, _ => []
  | fuel + 1, v, e, step => if v ≤ e then v :: range_loop fuel (v + step) e step else []

/-- `parse_range` (mobkp_instances.cpp lines 18-47): a bare value, or
`start-end` (step 1), or `start-end:step`, expanded by the inclusive
loop.  `none` models the error exits of the C++ code: a `std::stoi`
failure (which throws), or a non-positive step with `start ≤ end` (on
which the C++ loop never terminates). -/
def parse_range (s : String) : Option (List Int) :=
  match str_find s '-' with
  | none => (stoi s).map (fun v => [v])
  | some dash =>
    match stoi (substr_cnt s 0 dash) with
    | none => none
    | some start =>
      let es : Option (Int × Int) :=
        match str_find s ':' with
        | some colon =>
          match stoi (substr_cnt s (dash + 1)
                  (if colon < dash + 1 then s.toList.length else colon - dash - 1)),
              stoi (substr_from s (colon + 1)) with
          | some e, some st => some (e, st)
          | _, _ => none
        | none => (stoi (substr_from s (dash + 1))).map (fun e => (e, 1))
      match es with
      | none => none
      | some (e, step) =>
        if 0 < step ∨ e < start then some (range_loop (e + 1 - start).toNat start e step)
        else none

/-- Splitting at commas, as repeated `std::getline(ss, item, ',')` sees
the fields (before accounting for the failing final `getline`). -/
def split_fields : List Char → List (List Char)
  | [] => [[]]
  | c :: rest =>
    let r := split_fields rest
    if c = ',' then [] :: r
    else
      match r with
      | [] => [[c]]
      | f :: fs => (c :: f) :: fs

/-- `parse_double_list` (mobkp_instances.cpp lines 54-64): the
`std::getline(ss, item, ',')` loop yields the comma-separated pieces,
except that on empty input the first `getline` already fails (no pieces)
and a trailing separator produces no final empty piece (the last
`getline` fails at end of input); each piece goes through `std::stod`,
whose failure (modelled by `none`) would throw. -/
def parse_double_list (s : String) : Option (List Rat) :=
  match s.toList with
  | [] => some []
  | cs =>
    let parts := split_fields cs
    let parts := if cs.getLast? = some ',' then parts.dropLast else parts
    (parts.map (fun p => String.mk p)).mapM stod

/-- The correlation axis of the batch cross product
(mobkp_instances.cpp line 168): the degenerate `{0.0}` for `type = 0`,
the parsed correlation list otherwise. -/
def batch_corr_axis (ty : Int) (corr_values : List Rat) : List Rat :=
  if ty = 0 then [0] else corr_values

/-- The requests generated by `main`'s batch loops (mobkp_instances.cpp
lines 167-188): `n` outermost, then the correlation axis, then the
seeds; each innermost iteration builds one `Parameters` and generates
one instance. -/
def batch_requests (ty : Int) (n_values : List Int) (corr_values : List Rat)
    (seed_values : List Int) : List (Int × Rat × Int) :=
  n_values.flatMap (fun nv =>
    (batch_corr_axis ty corr_values).flatMap (fun c =>
      seed_values.map (fun sv => (nv, c, sv))))

/-- The `total` computed by `main` (mobkp_instances.cpp line 157):
`n_values.size() * seed_values.size() * (type == 0 ? 1 : corr_values.size())`. -/
def batch_total (ty : Int) (n_values : List Int) (corr_values : List Rat)
    (seed_values : List Int) : Nat :=
  n_values.length * seed_values.length * (if ty = 0 then 1 else corr_values.length)

/-! `Parameters` and the external generator command
(`parameters.hpp`; `correlated` and `internal::correlated_mobkp`,
solver.hpp lines 183-198 and 257-262) -/

/-- The `Parameters` struct (parameters.hpp), including the
`r_script_path` field set from the `--r-script` CLI option. -/
structure Parameters where
  type : Int
  n : Int
  m : Int
  seed : Int
  correlation : Rat
  weight_factor : Rat
  timeout : Rat
  folder_path : String
  outfile : String
  r_script_path : String
  deriving DecidableEq, Repr

/-- The external generator command built by `internal::correlated_mobkp`
(solver.hpp lines 193-198) from its arguments: the script path is the
*local constant* `"../include/generator.R"` declared at line 196, and the
argument formatter is a stand-in for `fmt::format` (its exact rendering
is irrelevant to the claims, which only compare commands). -/
def correlated_command (n m : Int) (rho : Rat) (weight_factor : Rat) (seed : Int)
    (file_path : String) : String :=
  let r_script_path := "../include/generator.R"
  "./" ++ r_script_path ++ " " ++ toString n ++ " " ++ toString m ++ " " ++
    toString rho ++ " " ++ "0" ++ " " ++ toString weight_factor ++ " " ++
    toString seed ++ " " ++ file_path

/-- The command issued for a `Parameters` value: `correlated`
(solver.hpp lines 257-262) forwards `n`, `m`, `correlation`, `seed`,
`weight_factor`, `timeout`, `folder_path` and `outfile` — and nothing
else — to `correlated_mobkp`, which builds the file path (line 194) and
the command. -/
def correlated_command_of (p : Parameters) : String :=
  correlated_command p.n p.m p.correlation p.weight_factor p.seed
    (p.folder_path ++ p.outfile)

/-! Helper lemmas -/

/-- Length of a `flatMap` whose blocks all have length `B`. -/
theorem length_flatMap_const {α β : Type} (l : List α) (f : α → List β) (B : Nat)
    (h : ∀ a ∈ l, (f a).length = B) : (l.flatMap f).length = l.length * B := by
  induction l with
  | nil => simp
  | cons a l ih =>
    simp only [List.flatMap_cons, List.length_append, List.length_cons]
    rw [h a (List.mem_cons_self a l), ih (fun b hb => h b (List.mem_cons_of_mem a hb))]
    ring

/-- Indexing into a `flatMap` over `List.range n` whose blocks all have
length `B`: position `i * B + j` with `j < B` falls in block `i`. -/
theorem getElem?_flatMap_range {β : Type} (f : Nat → List β) (B : Nat)
    (hB : ∀ i, (f i).length = B) (n i j : Nat) (hi : i < n) (hj : j < B) :
    ((List.range n).flatMap f)[i * B + j]? = (f i)[j]? := by
  have hlen : ((List.range n).flatMap f).length = n * B := by
    rw [length_flatMap_const _ _ B (fun a _ => hB a), List.length_range]
  induction n with
  | zero => omega
  | succ n ih =>
    have hlen' : ((List.range n).flatMap f).length = n * B := by
      rw [length_flatMap_const _ _ B (fun a _ => hB a), List.length_range]
    rw [List.range_succ, List.flatMap_append, List.getElem?_append]
    by_cases hin : i < n
    · rw [if_pos ?_]
      · exact ih hin hlen'
      · rw [hlen']
        have h1 : i * B + B ≤ n * B := by
          calc i * B + B = (i + 1) * B := by ring
          _ ≤ n * B := Nat.mul_le_mul_right B (Nat.succ_le_of_lt hin)
        omega
    · have hieq : i = n := by omega
      subst hieq
      rw [if_neg (by rw [hlen']; push_neg; nlinarith), hlen']
      simp only [List.flatMap_cons, List.flatMap_nil, List.append_nil]
      congr 1
      omega

/-- Membership in the expansion loop: with a positive step and enough
fuel (the amount `parse_range` supplies), the produced list is exactly
the inclusive arithmetic progression from `v` that does not exceed `e`. -/
theorem range_loop_mem (fuel : Nat) (v e step x : Int) (hstep : 0 < step)
    (hfuel : (e + 1 - v).toNat ≤ fuel) :
    x ∈ range_loop fuel v e step ↔ ∃ k : Nat, x = v + k * step ∧ x ≤ e := by
  induction fuel generalizing v with
  | zero =>
    simp only [range_loop, List.not_mem_nil, false_iff, not_exists, not_and]
    intro k hk
    have hv : e < v := by omega
    have : 0 ≤ (k : Int) * step := by positivity
    omega
  | succ fuel ih =>
    simp only [range_loop]
    by_cases hve : v ≤ e
    · rw [if_pos hve]
      simp only [List.mem_cons]
      rw [ih (v + step) (by omega)]
      constructor
      · rintro (rfl | ⟨k, rfl, hk⟩)
        · exact ⟨0, by simp, hve⟩
        · exact ⟨k + 1, by push_cast; ring, hk⟩
      · rintro ⟨k, rfl, hk⟩
        match k with
        | 0 => left; simp
        | k + 1 =>
          right
          exact ⟨k, by push_cast; ring, hk⟩
    · rw [if_neg hve]
      simp only [List.not_mem_nil, false_iff, not_exists, not_and]
      intro k hk
      have : 0 ≤ (k : Int) * step := by positivity
      omega

/-- Each item block of the flat encoding has length `m + 1`. -/
theorem itemBlock_length (seed m MAX i : Nat) : (itemBlock seed m MAX i).length = m + 1 := by
  simp [itemBlock]

/-- Both kinds of draws are at least 1 and, when `MAX ≥ 2`, at most
`MAX - 1` (they are `rand() % (MAX-1) + 1`). -/
theorem draw_bounds (seed m MAX : Nat) (hMAX : 2 ≤ MAX) :
    (∀ i j, 1 ≤ valueDraw seed m MAX i j ∧ valueDraw seed m MAX i j ≤ (MAX : Int) - 1) ∧
    (∀ i, 1 ≤ weightDraw seed m MAX i ∧ weightDraw seed m MAX i ≤ (MAX : Int) - 1) := by
  have hpos : 0 < MAX - 1 := by omega
  constructor
  · intro i j
    unfold valueDraw
    have := Nat.mod_lt (randAt seed (i * (m + 1) + 1 + j)) hpos
    push_cast
    omega
  · intro i
    unfold weightDraw
    have := Nat.mod_lt (randAt seed (i * (m + 1))) hpos
    push_cast
    omega

/-! Claim theorems -/

/-- Claim C3 (corrected), counterexample: the claim fixes only
`(n, m, seed, MAX)` across the two runs, but the capacity entry of
`RawInstanceData` also depends on `weightFactor`: with
`(n, m, seed, MAX) = (1, 2, 1, 300)` a run with `weightFactor = 0`
(capacity 0) and a run with `weightFactor = 1` (capacity = the item
weight, 95 under the modelled generator — non-zero under any generator,
since every weight is at least 1) produce different `RawInstanceData`. -/
theorem claim_C3_counterexample :
    random_mobkp_raw 1 2 1 0 300 ≠ random_mobkp_raw 1 2 1 1 300 := by
  have h1 : itemWeights 1 1 2 300 = [95] := by decide
  simp only [random_mobkp_raw, h1, ne_eq, List.cons.injEq, not_and]
  intro hc
  norm_num [capacityOf, roundHalfAway] at hc

/-- Claim C3 (amended): the Uniform-Random Generator is a deterministic
function of `(n, m, seed, weightFactor, MAX)` — two runs that agree on
all five produce identical `RawInstanceData` — and the item portion
(everything after the capacity) is already determined by
`(n, m, seed, MAX)` alone; only the capacity `W` additionally depends on
`weightFactor`. -/
theorem claim_C3_determinism (n₁ n₂ m₁ m₂ s₁ s₂ MAX₁ MAX₂ : Nat) (wf₁ wf₂ : Rat)
    (hn : n₁ = n₂) (hm : m₁ = m₂) (hs : s₁ = s₂) (hw : wf₁ = wf₂) (hM : MAX₁ = MAX₂) :
    random_mobkp_raw n₁ m₁ s₁ wf₁ MAX₁ = random_mobkp_raw n₂ m₂ s₂ wf₂ MAX₂ ∧
    ∀ wf wf' : Rat,
      (random_mobkp_raw n₁ m₁ s₁ wf MAX₁).tail = (random_mobkp_raw n₁ m₁ s₁ wf' MAX₁).tail := by
  subst hn hm hs hw hM
  exact ⟨rfl, fun _ _ => rfl⟩

/-- Witness for claim C3: the determinism theorem applied at
`(n, m, seed, weightFactor, MAX) = (1, 2, 1, 1/2, 300)`. -/
theorem claim_C3_witness :
    random_mobkp_raw 1 2 1 (1 / 2) 300 = random_mobkp_raw 1 2 1 (1 / 2) 300 :=
  (claim_C3_determinism 1 1 2 2 1 1 300 300 (1 / 2) (1 / 2) rfl rfl rfl rfl rfl).1

/-- Claim C4 (confirmed): the `RawInstanceData` of the Uniform-Random
Generator has length `1 + n*(m+1)`; position 0 holds the capacity; for
each item `i < n`, positions `1 + i*(m+1) + j` (`j < m`) hold its `m`
objective values and position `1 + i*(m+1) + m` its weight; and every
drawn value and weight lies in `[1, MAX-1]`. -/
theorem claim_C4 (n m seed MAX : Nat) (wf : Rat) (hMAX : 2 ≤ MAX) :
    (random_mobkp_raw n m seed wf MAX).length = 1 + n * (m + 1) ∧
    (random_mobkp_raw n m seed wf MAX)[0]? =
      some (capacityOf wf (itemWeights seed n m MAX).sum) ∧
    (∀ i j, i < n → j < m →
      (random_mobkp_raw n m seed wf MAX)[(i * (m + 1) + j) + 1]? =
        some (valueDraw seed m MAX i j)) ∧
    (∀ i, i < n →
      (random_mobkp_raw n m seed wf MAX)[(i * (m + 1) + m) + 1]? =
        some (weightDraw seed m MAX i)) ∧
    (∀ i j, 1 ≤ valueDraw seed m MAX i j ∧ valueDraw seed m MAX i j ≤ (MAX : Int) - 1) ∧
    (∀ i, 1 ≤ weightDraw seed m MAX i ∧ weightDraw seed m MAX i ≤ (MAX : Int) - 1) := by
  obtain ⟨hv, hw⟩ := draw_bounds seed m MAX hMAX
  refine ⟨?_, by simp [random_mobkp_raw], ?_, ?_, hv, hw⟩
  · simp only [random_mobkp_raw, List.length_cons]
    rw [length_flatMap_const _ _ (m + 1) (fun a _ => itemBlock_length seed m MAX a),
      List.length_range]
    omega
  · intro i j hi hj
    simp only [random_mobkp_raw, List.getElem?_cons_succ]
    rw [getElem?_flatMap_range _ (m + 1) (itemBlock_length seed m MAX) n i j hi (by omega)]
    unfold itemBlock
    rw [List.getElem?_append]
    rw [if_pos (by simp [hj])]
    rw [List.getElem?_map]
    simp [List.getElem?_range, hj]
  · intro i hi
    simp only [random_mobkp_raw, List.getElem?_cons_succ]
    rw [getElem?_flatMap_range _ (m + 1) (itemBlock_length seed m MAX) n i m hi (by omega)]
    unfold itemBlock
    rw [List.getElem?_append]
    rw [if_neg (by simp)]
    simp

/-- Witness for claim C4: the layout theorem applied at
`(n, m, seed, MAX, weightFactor) = (2, 2, 1, 300, 1/2)`. -/
theorem claim_C4_witness :
    (random_mobkp_raw 2 2 1 (1 / 2) 300).length = 1 + 2 * (2 + 1) ∧
    (random_mobkp_raw 2 2 1 (1 / 2) 300)[(1 * (2 + 1) + 2) + 1]? =
      some (weightDraw 1 2 300 1) ∧
    1 ≤ weightDraw 1 2 300 1 ∧ weightDraw 1 2 300 1 ≤ (300 : Int) - 1 := by
  obtain ⟨h1, _, _, h4, _, h6⟩ := claim_C4 2 2 1 300 (1 / 2) (by decide)
  exact ⟨h1, h4 1 (by decide), h6 1⟩

/-- Claim C5 (confirmed): the capacity entry of every generated raw
instance is `round(weightFactor × Σ weights)` (rounding half away from
zero, as `std::round` does), and in particular a total weight of 60
(items `[10, 20, 30]`) with `weightFactor = 1/2` gives capacity 30. -/
theorem claim_C5 :
    (∀ n m seed MAX : Nat, ∀ wf : Rat,
      (random_mobkp_raw n m seed wf MAX)[0]? =
        some (capacityOf wf (itemWeights seed n m MAX).sum)) ∧
    (∀ wf : Rat, ∀ total : Int,
      capacityOf wf total = roundHalfAway ((total : Rat) * wf)) ∧
    ([(10 : Int), 20, 30].sum = 60) ∧
    capacityOf (1 / 2) ([(10 : Int), 20, 30].sum) = 30 := by
  refine ⟨fun _ _ _ _ _ => by simp [random_mobkp_raw], fun _ _ => rfl, by decide, ?_⟩
  have h : ([(10 : Int), 20, 30].sum) = 60 := by decide
  rw [h]
  norm_num [capacityOf, roundHalfAway]

/-- Claim C1 (code bug): the Writer and the Problem decoder disagree on
the per-item token order, so the round trip does not reconstruct the
instance.  `write_solution` emits each item as its weight followed by
its `m` objective values (matching the format documented in
`instances/README.md`), while the decoder in `correlated_mobkp` reads
`m` objective values first and the weight last.  At the concrete
instance `n=1, m=2, W=5`, item `(weight 10, values (5,7))`, the written
token stream is `1 2 5 10 5 7 0` and re-parsing it yields the different
item `(weight 7, values (10,5))`. -/
theorem claim_C1_roundtrip_fails :
    write_solution_tokens ⟨1, 2, 5, [(10, [5, 7])]⟩ [] = [1, 2, 5, 10, 5, 7, 0] ∧
    parse_problem (write_solution_tokens ⟨1, 2, 5, [(10, [5, 7])]⟩ []) =
      some ⟨1, 2, 5, [(7, [10, 5])]⟩ ∧
    parse_problem (write_solution_tokens ⟨1, 2, 5, [(10, [5, 7])]⟩ []) ≠
      some ⟨1, 2, 5, [(10, [5, 7])]⟩ := by decide

/-- Claim C2 (code bug): `validate_correlation` makes the negative bound
*inclusive* — the guard rejects only `correlation < -maxAbsCorrelation` —
although its own error message announces the open interval
`(-maxAbsCorrelation, 0)`.  For `m = 3` the boundary request
`correlation = -0.5` is accepted (the claim and the message say it must
fail); `-0.45` is accepted as the claim says, and only values strictly
below `-0.5` (or `≥ 0`) are rejected. -/
theorem claim_C2_boundary_accepted :
    validate_correlation 1 3 (-(1 / 2)) = true ∧
    validate_correlation 1 3 (-(9 / 20)) = true ∧
    validate_correlation 1 3 (-(51 / 100)) = false ∧
    validate_correlation 1 3 0 = false := by
  refine ⟨?_, ?_, ?_, ?_⟩
  all_goals (simp only [validate_correlation]; norm_num)

/-- Claim C6 (confirmed): `parse_range` expands `start-end:step`
(`start-end` defaulting to step 1) into the inclusive arithmetic
progression capped by `end` — concretely `20-50:10` gives
`{20,30,40,50}` and `1-3` gives `{1,2,3}`, and in general the loop
yields exactly the progression values not exceeding `end` — and the
batch expansion produces `|items| × |seeds| × (1 if Random else
|correlations|)` requests, 24 for the claim's example. -/
theorem claim_C6_expander :
    parse_range "20-50:10" = some [20, 30, 40, 50] ∧
    parse_range "1-3" = some [1, 2, 3] ∧
    (∀ fuel : Nat, ∀ v e step x : Int, 0 < step → (e + 1 - v).toNat ≤ fuel →
      (x ∈ range_loop fuel v e step ↔ ∃ k : Nat, x = v + k * step ∧ x ≤ e)) ∧
    (∀ (ty : Int) (nvs : List Int) (cvs : List Rat) (svs : List Int),
      (batch_requests ty nvs cvs svs).length = batch_total ty nvs cvs svs) ∧
    parse_double_list "-0.1,-0.2" = some [-(1 / 10), -(1 / 5)] ∧
    (batch_requests 1 [20, 30, 40, 50] [-(1 / 10), -(1 / 5)] [1, 2, 3]).length = 24 := by
  refine ⟨by decide, by decide, range_loop_mem, ?_, ?_, by decide⟩
  · intro ty nvs cvs svs
    unfold batch_requests batch_total
    rw [length_flatMap_const _ _ ((batch_corr_axis ty cvs).length * svs.length) ?_]
    · unfold batch_corr_axis
      by_cases h : ty = 0
      · simp [h]
      · simp [h]
        ring
    · intro a _
      rw [length_flatMap_const _ _ svs.length (fun c _ => by simp)]
  · have h : parse_double_list "-0.1,-0.2" =
        some [-(((0 : Nat) : Rat) + ((1 : Nat) : Rat) / ((10 : Rat) ^ (1 : Nat))),
              -(((0 : Nat) : Rat) + ((2 : Nat) : Rat) / ((10 : Rat) ^ (1 : Nat)))] := rfl
    rw [h]
    norm_num

/-- Witness for claim C6: the loop-membership characterization applied
at `start = 20, end = 50, step = 10` (showing 30 is produced), and the
cardinality formula applied to a Random-type batch. -/
theorem claim_C6_witness :
    ((30 : Int) ∈ range_loop 31 20 50 10) ∧
    (batch_requests 0 [1, 2] [] [7]).length = batch_total 0 [1, 2] [] [7] := by
  refine ⟨?_, claim_C6_expander.2.2.2.1 0 [1, 2] [] [7]⟩
  exact (claim_C6_expander.2.2.1 31 20 50 10 30 (by decide) (by decide)).mpr
    ⟨1, by decide, by decide⟩

/-- Claim C7 (corrected), counterexample: a short read is not a fatal
error.  On the truncated token stream `2 2 10` every item extraction
fails (the stream fail flag ends `true`), yet the component proceeds to
solve/write with the zero-filled data `[10,0,0,0,0,0,0]` instead of
aborting. -/
theorem claim_C7_counterexample :
    (correlated_read ⟨["2", "2", "10"], false⟩).2 = true ∧
    correlated_mobkp_read (some ["2", "2", "10"]) =
      CorrOutcome.proceed [10, 0, 0, 0, 0, 0, 0] := by decide

/-- Claim C7 (amended): only failure to *open* the generator's output
file is fatal; parse failures are undetected — the source never
inspects the stream state.  A failed extraction (failed stream,
exhausted input, or non-numeric token) stores 0 and sets the sticky
fail flag, and the re-read stage proceeds for every token stream. -/
theorem claim_C7_no_parse_failure_handling :
    (correlated_mobkp_read none = CorrOutcome.fatalOpen) ∧
    (∀ ts : List String,
      correlated_mobkp_read (some ts) = CorrOutcome.proceed (correlated_read ⟨ts, false⟩).1) ∧
    (∀ s : IStream, s.failed = true → stream_read_int s = (0, s)) ∧
    (stream_read_int ⟨[], false⟩ = (0, ⟨[], true⟩)) ∧
    (token_int "abc" = none ∧ stream_read_int ⟨["abc"], false⟩ = (0, ⟨["abc"], true⟩)) := by
  refine ⟨rfl, fun ts => rfl, ?_, by decide, by decide⟩
  intro s hs
  simp [stream_read_int, hs]

/-- Witness for claim C7: the sticky-failure rule applied to a concrete
already-failed stream. -/
theorem claim_C7_witness :
    stream_read_int ⟨["7"], true⟩ = (0, ⟨["7"], true⟩) :=
  claim_C7_no_parse_failure_handling.2.2.1 ⟨["7"], true⟩ rfl

/-- Claim C8 (corrected), counterexample: a lock-acquisition failure on
the first of two batch requests makes `run_batch` stop after request 1
with the reported lock error — the second request never executes,
although the claim says the remaining requests still execute. -/
theorem claim_C8_counterexample :
    run_batch [⟨true, true, true, false⟩, ⟨true, true, true, true⟩] =
      (1, some StatsErr.lockFail) ∧
    (run_batch [⟨true, true, true, false⟩, ⟨true, true, true, true⟩]).1 ≠
      [(⟨true, true, true, false⟩ : AppendEnv), ⟨true, true, true, true⟩].length := by decide

/-- Claim C8 (amended): when `flock` fails the `FileLock` constructor
throws, nothing between `save_stats_to_file` and `main`'s top-level
handler catches, so the single append fails with the reported (never
retried) error — and the exception aborts the batch: no later request
of the batch executes. -/
theorem claim_C8_lock_failure_aborts_batch :
    (∀ env : AppendEnv, env.streamOk = true → env.fopenOk = true → env.filenoOk = true →
      env.lockOk = false → run_request env = Except.error StatsErr.lockFail) ∧
    (∀ (env : AppendEnv) (rest : List AppendEnv) (e : StatsErr),
      run_request env = Except.error e → run_batch (env :: rest) = (1, some e)) := by
  constructor
  · intro env h1 h2 h3 h4
    simp [run_request, save_stats_to_file, h1, h2, h3, h4]
  · intro env rest e h
    simp [run_batch, h]

/-- Witness for claim C8: a batch consisting of one request whose lock
acquisition fails ends after that request with the lock error. -/
theorem claim_C8_witness :
    run_batch [(⟨true, true, true, false⟩ : AppendEnv)] = (1, some StatsErr.lockFail) :=
  claim_C8_lock_failure_aborts_batch.2 ⟨true, true, true, false⟩ [] StatsErr.lockFail
    (claim_C8_lock_failure_aborts_batch.1 ⟨true, true, true, false⟩ rfl rfl rfl rfl)

/-- Claim C10 (confirmed): the external generator command is built from
the fixed local script path `"../include/generator.R"`; the
`r_script_path` field of `Parameters` is never passed to the generation
routine, so the command is invariant under changing that field, and more
generally depends only on `n`, `m`, `correlation`, `weight_factor`,
`seed`, `folder_path` and `outfile`. -/
theorem claim_C10_r_script_unused :
    (∀ (p : Parameters) (s : String),
      correlated_command_of { p with r_script_path := s } = correlated_command_of p) ∧
    (∀ p q : Parameters, p.n = q.n → p.m = q.m → p.correlation = q.correlation →
      p.weight_factor = q.weight_factor → p.seed = q.seed → p.folder_path = q.folder_path →
      p.outfile = q.outfile → correlated_command_of p = correlated_command_of q) := by
  constructor
  · intro p s
    rfl
  · intro p q h1 h2 h3 h4 h5 h6 h7
    simp [correlated_command_of, correlated_command, h1, h2, h3, h4, h5, h6, h7]

/-- Witness for claim C10: two concrete `Parameters` differing only in
`r_script_path` produce the identical external command. -/
theorem claim_C10_witness :
    correlated_command_of ⟨1, 10, 3, 1, 0, 0, 1, "a/", "b.in", "X"⟩ =
      correlated_command_of ⟨1, 10, 3, 1, 0, 0, 1, "a/", "b.in", "Y"⟩ :=
  claim_C10_r_script_unused.2 _ _ rfl rfl rfl rfl rfl rfl rfl

end MobkpInstances
